import Mathlib

/-!
Verification of `generate_app_icons.py` (Paint-my-town repository).

The script iterates a fixed size table, renders one square placeholder
icon per entry (gradient background, brush handle line, brush tip circle,
optional "P" glyph for large sizes) and saves it as a PNG.  We embed the
data model and the drawing pipeline shallowly: Python ints become `ℤ`/`ℕ`,
Python floats become exact `ℚ` values, `int(...)` truncation becomes
`pyInt`, the Pillow drawing calls become an explicit command trace, and
the gradient stage additionally gets a pixel-level semantics so that
per-pixel color claims can be stated.
-/

namespace AppIcons

/-- An RGB color value, one integer per channel (Pillow RGB mode). -/
structure RGB where
  r : ℤ
  g : ℤ
  b : ℤ
deriving DecidableEq, Repr

/-- The color named `white` in Pillow. -/
def white : RGB := ⟨255, 255, 255⟩

/-- Python `int(q)`: truncation toward zero of a (here exactly modelled) float. -/
def pyInt (q : ℚ) : ℤ := if q < 0 then ⌈q⌉ else ⌊q⌋

/-- The `ICON_SIZES` dictionary from the source, in its insertion order
(Python dicts iterate in insertion order). -/
def ICON_SIZES : List (String × ℕ) := [
  ("icon-20@2x.png", 40),
  ("icon-20@3x.png", 60),
  ("icon-29@2x.png", 58),
  ("icon-29@3x.png", 87),
  ("icon-40@2x.png", 80),
  ("icon-40@3x.png", 120),
  ("icon-60@2x.png", 120),
  ("icon-60@3x.png", 180),
  ("icon-20.png", 20),
  ("icon-20@2x-ipad.png", 40),
  ("icon-29.png", 29),
  ("icon-29@2x-ipad.png", 58),
  ("icon-40.png", 40),
  ("icon-40@2x-ipad.png", 80),
  ("icon-76.png", 76),
  ("icon-76@2x.png", 152),
  ("icon-83.5@2x.png", 167),
  ("icon-1024.png", 1024)]

/-- The gradient row color of row `y` on a canvas of edge `size`
(source lines 58-62): `r = int(52 + (147 - 52) * (y / size))`,
`g = int(152 + (51 - 152) * (y / size))`,
`b = int(219 + (234 - 219) * (y / size))`. -/
def gradColor (size y : ℕ) : RGB :=
  ⟨pyInt (52 + (147 - 52) * ((y : ℚ) / (size : ℚ))),
   pyInt (152 + (51 - 152) * ((y : ℚ) / (size : ℚ))),
   pyInt (219 + (234 - 219) * ((y : ℚ) / (size : ℚ)))⟩

/-- A pixel image: color at column `x`, row `y`. -/
def Img : Type := ℕ → ℕ → RGB

/-- The fresh canvas `Image.new('RGB', (size, size), color='white')`. -/
def initCanvas : Img := fun _ _ => white

/-- Pixel semantics of `draw.line([(0, yr), (size, yr)], fill=c)` for a
horizontal single-row line: every pixel of row `yr` with column `≤ size`
receives color `c`; other pixels keep their previous color. -/
def drawHLine (size yr : ℕ) (c : RGB) (img : Img) : Img :=
  fun px py => if py = yr ∧ px ≤ size then c else img px py

/-- The gradient-fill loop of `create_placeholder_icon` at the pixel level:
`for y in range(size): draw.line([(0, y), (size, y)], fill=(r, g, b))`. -/
def applyGradient (size : ℕ) : Img :=
  (List.range size).foldl (fun im yr => drawHLine size yr (gradColor size yr) im) initCanvas

/-- Evaluating the fold of horizontal-line draws: a pixel of row `y` within
the canvas width shows the color of the last line drawn on row `y`, which is
`gradColor size y` independently of the draw order; rows not drawn keep the
underlying image. -/
lemma foldl_drawHLine_eval (size : ℕ) (L : List ℕ) (img : Img) (x y : ℕ)
    (hx : x ≤ size) :
    (L.foldl (fun im yr => drawHLine size yr (gradColor size yr) im) img) x y =
      if y ∈ L then gradColor size y else img x y := by
  induction L generalizing img with
  | nil => simp
  | cons r L ih =>
    rw [List.foldl_cons, ih]
    by_cases hmem : y ∈ L
    · simp [hmem]
    · by_cases hyr : y = r
      · subst hyr
        simp [hmem, drawHLine, hx]
      · simp [hmem, hyr, drawHLine]

/-- Every in-canvas pixel of row `y` of the gradient background carries the
row color `gradColor size y`. -/
lemma applyGradient_eval (size x y : ℕ) (hx : x ≤ size) (hy : y < size) :
    applyGradient size x y = gradColor size y := by
  unfold applyGradient
  rw [foldl_drawHLine_eval size (List.range size) initCanvas x y hx]
  simp [List.mem_range.mpr hy]

/-! Brush geometry (source lines 66-93). All quantities are Python ints;
`//` is Python floor division, modelled by `Nat` division on nonnegative
operands and `Int.fdiv` on `ℤ`. -/

/-- Source line 66: `center_x = size // 2`. -/
def center_x (size : ℕ) : ℤ := ((size / 2 : ℕ) : ℤ)

/-- Source line 66: `center_y = size // 2`. -/
def center_y (size : ℕ) : ℤ := ((size / 2 : ℕ) : ℤ)

/-- Source line 67: `icon_size = int(size * 0.5)` (float product, truncated). -/
def icon_size (size : ℕ) : ℤ := pyInt ((size : ℚ) * (1 / 2))

/-- Source line 70: `brush_width = max(2, size // 20)`. -/
def brush_width (size : ℕ) : ℤ := ((max 2 (size / 20) : ℕ) : ℤ)

/-- Source line 71: `handle_start_x = center_x - icon_size // 3`. -/
def handle_start_x (size : ℕ) : ℤ := center_x size - Int.fdiv (icon_size size) 3

/-- Source line 72: `handle_start_y = center_y - icon_size // 3`. -/
def handle_start_y (size : ℕ) : ℤ := center_y size - Int.fdiv (icon_size size) 3

/-- Source line 73: `handle_end_x = center_x + icon_size // 3`. -/
def handle_end_x (size : ℕ) : ℤ := center_x size + Int.fdiv (icon_size size) 3

/-- Source line 74: `handle_end_y = center_y + icon_size // 3`. -/
def handle_end_y (size : ℕ) : ℤ := center_y size + Int.fdiv (icon_size size) 3

/-- Source line 83: `brush_radius = icon_size // 4`. -/
def brush_radius (size : ℕ) : ℤ := Int.fdiv (icon_size size) 4

/-- One Pillow drawing call recorded as data: a straight line with fill and
width, an ellipse given by its bounding box with fill and outline, or a text
draw at a position with an RGBA fill. -/
inductive DrawCmd where
  | dline (x0 y0 x1 y1 : ℤ) (fill : RGB) (width : ℤ)
  | dellipse (x0 y0 x1 y1 : ℤ) (fill outline : RGB)
  | dtext (x y : ℤ) (s : String) (fr fg fb fa : ℤ)
deriving DecidableEq, Repr

/-- The gradient stage as a command trace: one horizontal line per row
(source lines 58-63; Pillow default width argument is 0). -/
def gradientCmds (size : ℕ) : List DrawCmd :=
  (List.range size).map
    (fun (y : ℕ) => DrawCmd.dline 0 (y : ℤ) (size : ℤ) (y : ℤ) (gradColor size y) 0)

/-- The brush-handle draw call (source lines 76-80). -/
def brushLine (size : ℕ) : DrawCmd :=
  DrawCmd.dline (handle_start_x size) (handle_start_y size)
    (handle_end_x size) (handle_end_y size) white (brush_width size)

/-- The brush-tip draw call (source lines 84-93): an ellipse whose bounding
box is the square of half-edge `brush_radius` around the handle end point. -/
def brushTip (size : ℕ) : DrawCmd :=
  DrawCmd.dellipse (handle_end_x size - brush_radius size) (handle_end_y size - brush_radius size)
    (handle_end_x size + brush_radius size) (handle_end_y size + brush_radius size) white white

/-! The glyph stage (source lines 95-130).  Its interactions with the
outside world — which candidate font files exist, whether font loading and
the text-drawing calls succeed, and what bounding box `textbbox` reports —
are abstracted into an environment record; each failure point of the Python
code maps to one environment field. -/

/-- The bounding box returned by `draw.textbbox`. -/
structure BBox where
  x0 : ℤ
  y0 : ℤ
  x1 : ℤ
  y1 : ℤ

/-- The outside world seen by the glyph stage: `pathOk p` models
`os.path.exists(p)`, `loadOk p` models `ImageFont.truetype(p, ...)`
succeeding, `bboxOk`/`bbox` model the `draw.textbbox` call, and `textOk`
models the two `draw.text` calls succeeding. -/
structure FontEnv where
  pathOk : String → Bool
  loadOk : String → Bool
  bboxOk : Bool
  bbox : BBox
  textOk : Bool

/-- Source lines 102-106: the ordered candidate font path list. -/
def font_paths : List String := [
  "/System/Library/Fonts/Helvetica.ttc",
  "/usr/share/fonts/truetype/dejavu/DejaVuSans-Bold.ttf",
  "/usr/share/fonts/truetype/liberation/LiberationSans-Bold.ttf"]

/-- Source lines 107-111: the font-search loop keeps the first candidate
path that exists (the loop breaks after a hit), `none` when no path exists. -/
def findFont (env : FontEnv) : Option String := font_paths.find? env.pathOk

/-- The body of the glyph stage (source lines 98-126), with every failure
point explicit: the result is `Except.error ()` exactly when one of the
Pillow calls raises.  When no candidate font exists the stage succeeds and
draws nothing (`if font:` is false); otherwise it draws the shadow text and
the white "P" on top. -/
def glyphBody (size : ℕ) (env : FontEnv) : Except Unit (List DrawCmd) :=
  match findFont env with
  | none => Except.ok []
  | some p =>
    if env.loadOk p then
      if env.bboxOk then
        let tw := env.bbox.x1 - env.bbox.x0
        let th := env.bbox.y1 - env.bbox.y0
        let tx := Int.fdiv ((size : ℤ) - tw) 2
        let ty := Int.fdiv ((size : ℤ) - th) 2 - pyInt ((size : ℚ) * (5 / 100))
        let so : ℤ := ((max 1 (size / 100) : ℕ) : ℤ)
        if env.textOk then
          Except.ok [DrawCmd.dtext (tx + so) (ty + so) "P" 0 0 0 128,
            DrawCmd.dtext tx ty "P" 255 255 255 255]
        else Except.error ()
      else Except.error ()
    else Except.error ()

/-- Source lines 95-130 as seen from the caller: the glyph stage runs only
when `size >= 120`, and its `try/except: pass` handlers turn every failure
into "draw nothing". -/
def renderGlyph (size : ℕ) (env : FontEnv) : List DrawCmd :=
  if 120 ≤ size then
    match glyphBody size env with
    | Except.ok cs => cs
    | Except.error _ => []
  else []

/-- The result of `create_placeholder_icon`: the canvas dimensions, the
pixel image after the gradient stage, the full draw-call trace, and the
path the PNG was saved to. -/
structure Icon where
  width : ℕ
  height : ℕ
  background : Img
  cmds : List DrawCmd
  savedPath : String

/-- Source lines 50-134, `create_placeholder_icon(size, output_path)`:
allocate the square canvas, fill the gradient, draw the brush handle and
tip, best-effort draw the glyph, and save.  The function is total: the only
fallible stage (the glyph) is caught inside `renderGlyph`. -/
def create_placeholder_icon (size : ℕ) (output_path : String) (env : FontEnv) : Icon :=
  { width := size
    height := size
    background := applyGradient size
    cmds := gradientCmds size ++ brushLine size :: brushTip size :: renderGlyph size env
    savedPath := output_path }

/-- Outcome of a whole run of `main` (source lines 137-171): exit status,
the icons rendered (one `create_placeholder_icon` call each, in table
order), and whether the missing-directory diagnostic was printed. -/
structure RunResult where
  exitCode : ℕ
  rendered : List (String × Icon)
  printedError : Bool

/-- Source lines 137-171, `main()`: if the assets directory does not exist,
print the diagnostic and return 1 without rendering anything; otherwise
render every table entry in order and return 0. -/
def mainRun (assetsDirExists : Bool) (env : FontEnv) : RunResult :=
  if assetsDirExists then
    { exitCode := 0
      rendered := ICON_SIZES.map (fun e => (e.1, create_placeholder_icon e.2 e.1 env))
      printedError := false }
  else
    { exitCode := 1, rendered := [], printedError := true }

/-- A concrete environment with no font installed (all candidate paths
missing) and all drawing calls well-behaved. -/
def env0 : FontEnv :=
  { pathOk := fun _ => false, loadOk := fun _ => true, bboxOk := true
    bbox := ⟨0, 0, 0, 0⟩, textOk := true }

/-- A concrete environment in which a candidate font file exists but
loading it raises, so the glyph stage fails and the failure must be caught. -/
def envFail : FontEnv :=
  { pathOk := fun _ => true, loadOk := fun _ => false, bboxOk := true
    bbox := ⟨0, 0, 0, 0⟩, textOk := true }

/-! Arithmetic helper lemmas about the gradient math. -/

/-- Python `int(...)` agrees with the floor on nonnegative arguments. -/
lemma pyInt_of_nonneg (q : ℚ) (h : 0 ≤ q) : pyInt q = ⌊q⌋ := by
  unfold pyInt
  rw [if_neg (not_lt.mpr h)]

/-- The interpolation fraction `y / size` is nonnegative. -/
lemma gradFrac_nonneg (size y : ℕ) : 0 ≤ (y : ℚ) / (size : ℚ) := by positivity

/-- The interpolation fraction is below 1 for an in-canvas row. -/
lemma gradFrac_lt_one (size y : ℕ) (hy : y < size) : (y : ℚ) / (size : ℚ) < 1 := by
  have hs : (0 : ℚ) < (size : ℚ) := by
    exact_mod_cast lt_of_le_of_lt (Nat.zero_le y) hy
  rw [div_lt_one hs]
  exact_mod_cast hy

/-- The interpolation fraction is monotone in the row index. -/
lemma gradFrac_mono (size y1 y2 : ℕ) (h : y1 ≤ y2) :
    (y1 : ℚ) / (size : ℚ) ≤ (y2 : ℚ) / (size : ℚ) := by
  rcases Nat.eq_zero_or_pos size with h0 | h0
  · simp [h0]
  · have hs : (0 : ℚ) < (size : ℚ) := by exact_mod_cast h0
    gcongr

/-- The red channel as a floor. -/
lemma gradColor_r (size y : ℕ) :
    (gradColor size y).r = ⌊(52 : ℚ) + 95 * ((y : ℚ) / (size : ℚ))⌋ := by
  have h0 : (0 : ℚ) ≤ 52 + (147 - 52) * ((y : ℚ) / (size : ℚ)) := by
    nlinarith [gradFrac_nonneg size y]
  show pyInt _ = _
  rw [pyInt_of_nonneg _ h0]
  norm_num

/-- The green channel as a floor, for an in-canvas row. -/
lemma gradColor_g (size y : ℕ) (hy : y < size) :
    (gradColor size y).g = ⌊(152 : ℚ) - 101 * ((y : ℚ) / (size : ℚ))⌋ := by
  have h1 := le_of_lt (gradFrac_lt_one size y hy)
  have h0 : (0 : ℚ) ≤ 152 + (51 - 152) * ((y : ℚ) / (size : ℚ)) := by nlinarith
  show pyInt _ = _
  rw [pyInt_of_nonneg _ h0]
  congr 1
  ring

/-- The blue channel as a floor. -/
lemma gradColor_b (size y : ℕ) :
    (gradColor size y).b = ⌊(219 : ℚ) + 15 * ((y : ℚ) / (size : ℚ))⌋ := by
  have h0 : (0 : ℚ) ≤ 219 + (234 - 219) * ((y : ℚ) / (size : ℚ)) := by
    nlinarith [gradFrac_nonneg size y]
  show pyInt _ = _
  rw [pyInt_of_nonneg _ h0]
  norm_num

/-- The top row of the gradient carries exactly the start color. -/
lemma gradColor_zero (size : ℕ) : gradColor size 0 = ⟨52, 152, 219⟩ := by
  unfold gradColor
  norm_num [pyInt]

/-- The red channel is nondecreasing down the canvas. -/
lemma gradColor_r_mono (size y1 y2 : ℕ) (h : y1 ≤ y2) :
    (gradColor size y1).r ≤ (gradColor size y2).r := by
  rw [gradColor_r, gradColor_r]
  apply Int.floor_mono
  have := gradFrac_mono size y1 y2 h
  linarith

/-- The green channel is nonincreasing down the canvas. -/
lemma gradColor_g_anti (size y1 y2 : ℕ) (h : y1 ≤ y2) (hy : y2 < size) :
    (gradColor size y2).g ≤ (gradColor size y1).g := by
  rw [gradColor_g size y1 (lt_of_le_of_lt h hy), gradColor_g size y2 hy]
  apply Int.floor_mono
  have := gradFrac_mono size y1 y2 h
  linarith

/-- The blue channel is nondecreasing down the canvas. -/
lemma gradColor_b_mono (size y1 y2 : ℕ) (h : y1 ≤ y2) :
    (gradColor size y1).b ≤ (gradColor size y2).b := by
  rw [gradColor_b, gradColor_b]
  apply Int.floor_mono
  have := gradFrac_mono size y1 y2 h
  linarith

/-- The interpolation fraction of the bottom row, rewritten. -/
lemma gradFrac_last (size : ℕ) (h2 : 2 ≤ size) :
    ((size - 1 : ℕ) : ℚ) / (size : ℚ) = 1 - 1 / (size : ℚ) := by
  have hs : (size : ℚ) ≠ 0 := Nat.cast_ne_zero.mpr (by omega)
  have hc : ((size - 1 : ℕ) : ℚ) = (size : ℚ) - 1 := by
    rw [Nat.cast_sub (by omega : 1 ≤ size)]
    norm_num
  rw [hc]
  field_simp

/-- The casted size is positive when the table size is at least 2. -/
lemma size_cast_pos (size : ℕ) (h2 : 2 ≤ size) : (0 : ℚ) < (size : ℚ) := by
  exact_mod_cast (by omega : 0 < size)

/-- The bottom-row red channel, in closed form. -/
lemma gradColor_last_r (size : ℕ) (h2 : 2 ≤ size) :
    (gradColor size (size - 1)).r = ⌊(147 : ℚ) - 95 / (size : ℚ)⌋ := by
  rw [gradColor_r, gradFrac_last size h2]
  congr 1
  ring

/-- The bottom-row green channel, in closed form. -/
lemma gradColor_last_g (size : ℕ) (h2 : 2 ≤ size) :
    (gradColor size (size - 1)).g = ⌊(51 : ℚ) + 101 / (size : ℚ)⌋ := by
  rw [gradColor_g size (size - 1) (by omega), gradFrac_last size h2]
  congr 1
  ring

/-- The bottom-row blue channel, in closed form. -/
lemma gradColor_last_b (size : ℕ) (h2 : 2 ≤ size) :
    (gradColor size (size - 1)).b = ⌊(234 : ℚ) - 15 / (size : ℚ)⌋ := by
  rw [gradColor_b, gradFrac_last size h2]
  congr 1
  ring

/-- The bottom-row red channel stops short of the end value 147. -/
lemma gradColor_last_r_le (size : ℕ) (h2 : 2 ≤ size) :
    (gradColor size (size - 1)).r ≤ 146 := by
  rw [gradColor_last_r size h2]
  have hs := size_cast_pos size h2
  have hlt : (147 : ℚ) - 95 / (size : ℚ) < ((147 : ℤ) : ℚ) := by
    have : (0 : ℚ) < 95 / (size : ℚ) := by positivity
    push_cast
    linarith
  have := Int.floor_lt.mpr hlt
  omega

/-- The bottom-row red channel is within one interpolation step of 147. -/
lemma gradColor_last_r_gt (size : ℕ) (h2 : 2 ≤ size) :
    (147 : ℚ) - 95 / (size : ℚ) - 1 < ((gradColor size (size - 1)).r : ℚ) := by
  rw [gradColor_last_r size h2]
  have := Int.sub_one_lt_floor ((147 : ℚ) - 95 / (size : ℚ))
  linarith

/-- The bottom-row green channel stays at or above the end value 51. -/
lemma gradColor_last_g_ge (size : ℕ) (h2 : 2 ≤ size) :
    (51 : ℤ) ≤ (gradColor size (size - 1)).g := by
  rw [gradColor_last_g size h2]
  apply Int.le_floor.mpr
  have hs := size_cast_pos size h2
  have : (0 : ℚ) < 101 / (size : ℚ) := by positivity
  push_cast
  linarith

/-- The bottom-row green channel is within one interpolation step of 51. -/
lemma gradColor_last_g_le (size : ℕ) (h2 : 2 ≤ size) :
    ((gradColor size (size - 1)).g : ℚ) ≤ 51 + 101 / (size : ℚ) := by
  rw [gradColor_last_g size h2]
  exact Int.floor_le _

/-- The bottom-row blue channel stops short of the end value 234. -/
lemma gradColor_last_b_le (size : ℕ) (h2 : 2 ≤ size) :
    (gradColor size (size - 1)).b ≤ 233 := by
  rw [gradColor_last_b size h2]
  have hs := size_cast_pos size h2
  have hlt : (234 : ℚ) - 15 / (size : ℚ) < ((234 : ℤ) : ℚ) := by
    have : (0 : ℚ) < 15 / (size : ℚ) := by positivity
    push_cast
    linarith
  have := Int.floor_lt.mpr hlt
  omega

/-- The bottom-row blue channel is within one interpolation step of 234. -/
lemma gradColor_last_b_gt (size : ℕ) (h2 : 2 ≤ size) :
    (234 : ℚ) - 15 / (size : ℚ) - 1 < ((gradColor size (size - 1)).b : ℚ) := by
  rw [gradColor_last_b size h2]
  have := Int.sub_one_lt_floor ((234 : ℚ) - 15 / (size : ℚ))
  linarith

/-! Claim theorems. -/

/-- C9: the size table invariant holds — every entry's edge length is a
positive integer and the filenames are pairwise distinct. -/
theorem size_table_invariant :
    (∀ e ∈ ICON_SIZES, 0 < e.2) ∧ (ICON_SIZES.map Prod.fst).Nodup := by
  decide

/-- C1: for every entry (filename, size) of the size table, the icon
produced by `create_placeholder_icon` has width and height both exactly
`size` pixels. -/
theorem render_dimensions_match_table (fname : String) (sz : ℕ)
    (h : (fname, sz) ∈ ICON_SIZES) (path : String) (env : FontEnv) :
    (create_placeholder_icon sz path env).width = sz ∧
    (create_placeholder_icon sz path env).height = sz :=
  ⟨rfl, rfl⟩

/-- Witness for C1 at the largest table entry. -/
theorem render_dimensions_match_table_check :
    ("icon-1024.png", 1024) ∈ ICON_SIZES ∧
    (create_placeholder_icon 1024 "out.png" env0).width = 1024 ∧
    (create_placeholder_icon 1024 "out.png" env0).height = 1024 :=
  ⟨by decide,
   render_dimensions_match_table "icon-1024.png" 1024 (by decide) "out.png" env0⟩

/-- C4: when the assets directory is missing, `main` prints the diagnostic,
renders nothing (zero `create_placeholder_icon` calls, zero files), and
returns exit status 1. -/
theorem missing_dir_exits_one (env : FontEnv) :
    (mainRun false env).exitCode = 1 ∧
    (mainRun false env).rendered = [] ∧
    (mainRun false env).printedError = true :=
  ⟨rfl, rfl, rfl⟩

/-- C2: for every positive size and every in-canvas pixel (x, y), the
gradient background assigns row y the color
`(int(52 + (147-52)*(y/size)), int(152 + (51-152)*(y/size)),
int(219 + (234-219)*(y/size)))`; the right-hand side does not depend on x,
so every pixel of row y is identical. -/
theorem gradient_row_pixel_color (size x y : ℕ) (path : String) (env : FontEnv)
    (hs : 0 < size) (hx : x < size) (hy : y < size) :
    (create_placeholder_icon size path env).background x y =
      ⟨pyInt (52 + (147 - 52) * ((y : ℚ) / (size : ℚ))),
       pyInt (152 + (51 - 152) * ((y : ℚ) / (size : ℚ))),
       pyInt (219 + (234 - 219) * ((y : ℚ) / (size : ℚ)))⟩ := by
  show applyGradient size x y = _
  rw [applyGradient_eval size x y (le_of_lt hx) hy]
  rfl

/-- Witness for C2 at size 2, pixel (0, 1). -/
theorem gradient_row_pixel_color_check :
    (create_placeholder_icon 2 "out.png" env0).background 0 1 =
      ⟨pyInt (52 + (147 - 52) * ((1 : ℚ) / ((2 : ℕ) : ℚ))),
       pyInt (152 + (51 - 152) * ((1 : ℚ) / ((2 : ℕ) : ℚ))),
       pyInt (219 + (234 - 219) * ((1 : ℚ) / ((2 : ℕ) : ℚ)))⟩ :=
  gradient_row_pixel_color 2 0 1 "out.png" env0 (by decide) (by decide) (by decide)

/-- C3: the glyph stage is best-effort and gated on size: the rendered
glyph command list is empty below size 120 and is the caught result of the
fallible glyph body from 120 upward (`Except.error`, i.e. a raised Pillow
exception, becomes "draw nothing"); in every case `create_placeholder_icon`
completes and saves the image at the requested path. -/
theorem glyph_best_effort (size : ℕ) (path : String) (env : FontEnv) :
    renderGlyph size env =
      (if 120 ≤ size then (glyphBody size env).toOption.getD [] else []) ∧
    (create_placeholder_icon size path env).cmds =
      gradientCmds size ++ brushLine size :: brushTip size :: renderGlyph size env ∧
    (create_placeholder_icon size path env).savedPath = path := by
  refine ⟨?_, rfl, rfl⟩
  unfold renderGlyph
  by_cases h : 120 ≤ size
  · rw [if_pos h, if_pos h]
    cases hb : glyphBody size env with
    | error e => simp [Except.toOption]
    | ok cs => simp [Except.toOption]
  · rw [if_neg h, if_neg h]

/-- Witness for C3 at size 120 in an environment where a candidate font
path exists but loading it raises, so the glyph body fails and the failure
is swallowed. -/
theorem glyph_best_effort_check :
    renderGlyph 120 envFail =
      (if 120 ≤ 120 then (glyphBody 120 envFail).toOption.getD [] else []) ∧
    (create_placeholder_icon 120 "out.png" envFail).cmds =
      gradientCmds 120 ++ brushLine 120 :: brushTip 120 :: renderGlyph 120 envFail ∧
    (create_placeholder_icon 120 "out.png" envFail).savedPath = "out.png" :=
  glyph_best_effort 120 "out.png" envFail

/-- Counterexample to C5 as stated: a full successful run renders one icon
per size-table entry, which is 18 files, not 19. -/
theorem full_run_not_nineteen :
    (mainRun true env0).rendered.length = 18 ∧
    ¬ (mainRun true env0).rendered.length = 19 := by
  have h : (mainRun true env0).rendered.length = 18 := by
    show (ICON_SIZES.map _).length = 18
    rw [List.length_map]
    decide
  exact ⟨h, by rw [h]; decide⟩

/-- C5 (amended): a complete successful run writes a fixed set of 18 PNG
files, one per size-table entry, each named and sized per the table. -/
theorem full_run_writes_table (env : FontEnv) :
    (mainRun true env).rendered.map (fun pr => (pr.1, pr.2.width)) = ICON_SIZES ∧
    (mainRun true env).rendered.length = 18 := by
  have hr : (mainRun true env).rendered =
      ICON_SIZES.map (fun e => (e.1, create_placeholder_icon e.2 e.1 env)) := rfl
  constructor
  · rw [hr, List.map_map]
    have h2 : ((fun (pr : String × Icon) => (pr.1, pr.2.width)) ∘
        (fun (e : String × ℕ) => (e.1, create_placeholder_icon e.2 e.1 env))) = id :=
      funext fun e => Prod.mk.eta
    rw [h2, List.map_id]
  · rw [hr, List.length_map]
    decide

/-- C6: with an existing output directory and the full size table, the run
creates exactly 18 files, named exactly as in the table and in table order,
and exits with status 0. -/
theorem full_run_success_exit_zero (env : FontEnv) :
    (mainRun true env).exitCode = 0 ∧
    (mainRun true env).rendered.length = 18 ∧
    (mainRun true env).rendered.map Prod.fst = ICON_SIZES.map Prod.fst := by
  have hr : (mainRun true env).rendered =
      ICON_SIZES.map (fun e => (e.1, create_placeholder_icon e.2 e.1 env)) := rfl
  refine ⟨rfl, ?_, ?_⟩
  · rw [hr, List.length_map]
    decide
  · rw [hr, List.map_map]
    exact List.map_congr_left (fun e _ => rfl)

/-- Counterexample to C7 as stated: at table size 29 the code computes
`icon_size = int(29 * 0.5) = 14` (truncation), while the claimed
`round(29 * 0.5)` is 15, so `iconSize = round(size * 0.5)` is false. -/
theorem icon_size_not_round :
    icon_size 29 = 14 ∧ round ((29 : ℚ) * (1 / 2)) = 15 ∧
    icon_size 29 ≠ round ((29 : ℚ) * (1 / 2)) := by
  have h1 : icon_size 29 = 14 := by
    unfold icon_size
    rw [pyInt_of_nonneg _ (by norm_num)]
    norm_num
  have h2 : round ((29 : ℚ) * (1 / 2)) = 15 := by
    rw [round_eq]
    norm_num
  exact ⟨h1, h2, by rw [h1, h2]; decide⟩

/-- C7 (amended): with `iconSize = int(size * 0.5) = ⌊size * 0.5⌋`
(truncation, not rounding), the brush handle is the white line from
`(center - iconSize//3, center - iconSize//3)` to
`(center + iconSize//3, center + iconSize//3)` of width `max(2, size//20)`,
and the brush tip is the white filled circle of radius `iconSize//4`
centered at the handle end point (drawn as the ellipse on its bounding
square); both draw calls sit between the gradient and the glyph stage. -/
theorem brush_geometry (size : ℕ) (path : String) (env : FontEnv) (hs : 0 < size) :
    icon_size size = ⌊(size : ℚ) * (1 / 2)⌋ ∧
    brushLine size = DrawCmd.dline
      (center_x size - Int.fdiv (icon_size size) 3)
      (center_y size - Int.fdiv (icon_size size) 3)
      (center_x size + Int.fdiv (icon_size size) 3)
      (center_y size + Int.fdiv (icon_size size) 3)
      white ((max 2 (size / 20) : ℕ) : ℤ) ∧
    brushTip size = DrawCmd.dellipse
      (center_x size + Int.fdiv (icon_size size) 3 - Int.fdiv (icon_size size) 4)
      (center_y size + Int.fdiv (icon_size size) 3 - Int.fdiv (icon_size size) 4)
      (center_x size + Int.fdiv (icon_size size) 3 + Int.fdiv (icon_size size) 4)
      (center_y size + Int.fdiv (icon_size size) 3 + Int.fdiv (icon_size size) 4)
      white white ∧
    (create_placeholder_icon size path env).cmds =
      gradientCmds size ++ brushLine size :: brushTip size :: renderGlyph size env := by
  refine ⟨?_, rfl, rfl, rfl⟩
  exact pyInt_of_nonneg _ (by positivity)

/-- Witness for C7 (amended) at size 40. -/
theorem brush_geometry_check :
    icon_size 40 = ⌊((40 : ℕ) : ℚ) * (1 / 2)⌋ ∧
    brushLine 40 = DrawCmd.dline
      (center_x 40 - Int.fdiv (icon_size 40) 3)
      (center_y 40 - Int.fdiv (icon_size 40) 3)
      (center_x 40 + Int.fdiv (icon_size 40) 3)
      (center_y 40 + Int.fdiv (icon_size 40) 3)
      white ((max 2 (40 / 20) : ℕ) : ℤ) ∧
    brushTip 40 = DrawCmd.dellipse
      (center_x 40 + Int.fdiv (icon_size 40) 3 - Int.fdiv (icon_size 40) 4)
      (center_y 40 + Int.fdiv (icon_size 40) 3 - Int.fdiv (icon_size 40) 4)
      (center_x 40 + Int.fdiv (icon_size 40) 3 + Int.fdiv (icon_size 40) 4)
      (center_y 40 + Int.fdiv (icon_size 40) 3 + Int.fdiv (icon_size 40) 4)
      white white ∧
    (create_placeholder_icon 40 "out.png" env0).cmds =
      gradientCmds 40 ++ brushLine 40 :: brushTip 40 :: renderGlyph 40 env0 :=
  brush_geometry 40 "out.png" env0 (by decide)

/-- C8: for every size at least 2, row 0 of the gradient is exactly
(52, 152, 219); down the canvas the red and blue channels are nondecreasing
and the green channel is nonincreasing; and the bottom row approximates the
end color (147, 51, 234): each channel sits within one interpolation step
(95/size, 101/size, 15/size plus the truncation loss) of its end value
while red and blue stay strictly below it and green at or above it. -/
theorem gradient_monotone_endpoints (size y1 y2 : ℕ) (h2 : 2 ≤ size)
    (h12 : y1 ≤ y2) (hy : y2 < size) :
    gradColor size 0 = ⟨52, 152, 219⟩ ∧
    ((gradColor size y1).r ≤ (gradColor size y2).r ∧
     (gradColor size y2).g ≤ (gradColor size y1).g ∧
     (gradColor size y1).b ≤ (gradColor size y2).b) ∧
    ((147 : ℚ) - 95 / (size : ℚ) - 1 < ((gradColor size (size - 1)).r : ℚ) ∧
     (gradColor size (size - 1)).r < 147 ∧
     (51 : ℤ) ≤ (gradColor size (size - 1)).g ∧
     ((gradColor size (size - 1)).g : ℚ) ≤ 51 + 101 / (size : ℚ) ∧
     (234 : ℚ) - 15 / (size : ℚ) - 1 < ((gradColor size (size - 1)).b : ℚ) ∧
     (gradColor size (size - 1)).b < 234) := by
  refine ⟨gradColor_zero size,
    ⟨gradColor_r_mono size y1 y2 h12, gradColor_g_anti size y1 y2 h12 hy,
     gradColor_b_mono size y1 y2 h12⟩,
    gradColor_last_r_gt size h2, ?_, gradColor_last_g_ge size h2,
    gradColor_last_g_le size h2, gradColor_last_b_gt size h2, ?_⟩
  · have := gradColor_last_r_le size h2
    omega
  · have := gradColor_last_b_le size h2
    omega

/-- Witness for C8 at size 3, rows 0 and 2. -/
theorem gradient_monotone_endpoints_check :
    gradColor 3 0 = ⟨52, 152, 219⟩ ∧
    ((gradColor 3 0).r ≤ (gradColor 3 2).r ∧
     (gradColor 3 2).g ≤ (gradColor 3 0).g ∧
     (gradColor 3 0).b ≤ (gradColor 3 2).b) ∧
    ((147 : ℚ) - 95 / ((3 : ℕ) : ℚ) - 1 < ((gradColor 3 (3 - 1)).r : ℚ) ∧
     (gradColor 3 (3 - 1)).r < 147 ∧
     (51 : ℤ) ≤ (gradColor 3 (3 - 1)).g ∧
     ((gradColor 3 (3 - 1)).g : ℚ) ≤ 51 + 101 / ((3 : ℕ) : ℚ) ∧
     (234 : ℚ) - 15 / ((3 : ℕ) : ℚ) - 1 < ((gradColor 3 (3 - 1)).b : ℚ) ∧
     (gradColor 3 (3 - 1)).b < 234) :=
  gradient_monotone_endpoints 3 0 2 (by decide) (by decide) (by decide)

/-- C10: for every size at least 2, the bottom gradient row never reaches
the end color exactly: its red channel `int(52 + 95 * (size-1)/size)` is at
most 146, because the fraction (size-1)/size is strictly below 1 and the
channel is truncated. -/
theorem gradient_last_row_below_end (size : ℕ) (h2 : 2 ≤ size) :
    (gradColor size (size - 1)).r ≤ 146 ∧
    gradColor size (size - 1) ≠ ⟨147, 51, 234⟩ := by
  have hr := gradColor_last_r_le size h2
  refine ⟨hr, ?_⟩
  intro h
  have h147 : (147 : ℤ) ≤ 146 := by rw [h] at hr; exact hr
  omega

/-- Witness for C10 at size 2. -/
theorem gradient_last_row_below_end_check :
    (gradColor 2 (2 - 1)).r ≤ 146 ∧
    gradColor 2 (2 - 1) ≠ ⟨147, 51, 234⟩ :=
  gradient_last_row_below_end 2 (by decide)

end AppIcons
